import Mathlib

/-!
Shallow embedding of the ThreadAi payment/entitlement service
(src/services/payment.js) in Lean 4.

Modelling conventions:
* A JavaScript date string is modelled by its parse result: `some t` is a
  string that `new Date(s).getTime()` parses to the millisecond value `t`,
  and `none` is an unparseable string (`NaN`).  `now < new Date(s)` is
  `false` whenever the date is unparseable, exactly as in JavaScript.
* Remote calls are modelled by an `Oracle` record holding, for each
  endpoint touched during one `getUnifiedSubscriptionStatus` run, either
  the parsed response (`Except.ok`) or a thrown error message
  (`Except.error`, covering transport failures and exhausted retries).
* `chrome.storage.local` is modelled by the `Storage` record restricted to
  the keys the reconciler reads and writes; every write of the trial key
  and every remote call is also recorded in an `Event` trace so that
  write/ call discipline can be stated as theorems.
* Time does not advance during one run: a single `now` (ms since epoch)
  stands for every `Date.now()` / `new Date()` taken inside the call.
* Day arithmetic (`setDate(getDate() + 3)`) is modelled as adding a fixed
  86,400,000 ms per day.
-/

namespace ThreadAi

/-- A JavaScript date string, represented by its parse result in ms
(`none` = unparseable / `NaN`). -/
abbrev DateStr := Option Int

/-- Model of the JavaScript `String.prototype.includes` check: `leadsWith
sub l` holds when `sub` starts the character list `l`. -/
def leadsWith : List Char → List Char → Bool
  | [], _ => true
  | _ :: _, [] => false
  | a :: as, b :: bs => a == b && leadsWith as bs

/-- Whether the character list contains `sub` as a contiguous run. -/
def hasSubList (sub : List Char) : List Char → Bool
  | [] => leadsWith sub []
  | c :: cs => leadsWith sub (c :: cs) || hasSubList sub cs

/-- Model of `s.includes(sub)` from JavaScript. -/
def jsIncludes (s sub : String) : Bool :=
  hasSubList sub.data s.data

/-- Model of the JavaScript `x || dflt` idiom on an optional string field
(`none` and the empty string are falsy). -/
def jsOr (o : Option String) (dflt : String) : String :=
  match o with
  | some s => if s = "" then dflt else s
  | none => dflt

/-- Model of the `toLocaleDateString` builtin; only the surrounding text
of the messages it is spliced into matters for the theorems below. -/
def toLocaleDateString (d : DateStr) : String :=
  match d with
  | some n => toString n
  | none => "Invalid Date"

/-- An `EntitlementStatus` object as produced by
`getUnifiedSubscriptionStatus` (fields absent on some variants are
modelled with `none` / `false` / `""`).  Responses of the remote
`/check` endpoint are values of this same shape, since the code stores
and returns them verbatim. -/
structure Status where
  active : Bool
  plan : String
  isTrialing : Bool
  trialEndsAt : Option DateStr
  message : String
  errorDetails : Option String
deriving DecidableEq

/-- The locally persisted trial record (`TRIAL_KEY`). -/
structure TrialRecord where
  deviceToken : String
  trialEndsAt : DateStr
  startedAt : DateStr
  isTrialing : Bool
  serverVerified : Bool
  restoredFromServer : Bool
deriving DecidableEq

/-- Parsed body of a `POST /trial/status` response. -/
structure TrialStatusResp where
  hasTrial : Bool
  trialEndsAt : DateStr
  startedAt : DateStr
deriving DecidableEq

/-- Parsed body of a `POST /trial/check` response. -/
structure TrialCheckResp where
  allowed : Bool
  reason : String
  message : Option String
  usedAt : DateStr
deriving DecidableEq

/-- Parsed body of a `POST /trial/register` response. -/
structure RegisterResp where
  success : Bool
  error : Option String
deriving DecidableEq

/-- A fetch response as far as the code inspects it: the `ok` flag and
the parsed JSON body. -/
structure HttpResp (α : Type) where
  ok : Bool
  body : α
deriving DecidableEq

/-- The slice of `chrome.storage.local` the reconciler reads and
writes. -/
structure Storage where
  deviceToken : Option String
  subscription : Option Status
  trial : Option TrialRecord
deriving DecidableEq

/-- The in-memory status cache of the service singleton. -/
structure Cache where
  statusCache : Option Status
  cacheTimestamp : Int
deriving DecidableEq

/-- Outcomes of the remote calls one `getUnifiedSubscriptionStatus` run
can make.  `Except.error msg` models a thrown error (transport failure,
or `makeWorkerRequest` exhausting its retries) carrying `msg` as the
error message. -/
structure Oracle where
  check : Except String Status
  trialStatus : Except String TrialStatusResp
  preCheck : Except String (HttpResp TrialCheckResp)
  stCheck : Except String (HttpResp TrialCheckResp)
  register : Except String (HttpResp RegisterResp)

/-- Observable events of a run: remote calls made and writes of the
trial / subscription keys. -/
inductive Event
  | callCheck
  | writeSub (s : Status)
  | callTrialStatus
  | writeTrial (t : TrialRecord)
  | callPreCheck
  | callStartTrial
deriving DecidableEq

/-- Result of one `getUnifiedSubscriptionStatus` run: the returned
status, the cache and storage after the run, and the event trace. -/
structure RunResult where
  status : Status
  cache : Cache
  storage : Storage
  events : List Event
deriving DecidableEq

def CACHE_DURATION : Int := 30000

def TRIAL_DURATION_DAYS : Int := 3

def msPerDay : Int := 86400000

/-- Builder for the terminal branches: cache the status with the current
timestamp and return it. -/
def finish (s : Status) (st : Storage) (evs : List Event) (now : Int) : RunResult :=
  ⟨s, ⟨some s, now⟩, st, evs⟩

/-- Prepend events of an earlier stage to a run result. -/
def addEvents (pre : List Event) (r : RunResult) : RunResult :=
  ⟨r.status, r.cache, r.storage, pre ++ r.events⟩

/-- Status built for an unexpired trial (`plan: 'trial'`). -/
def trialActiveStatus (e : DateStr) : Status :=
  ⟨false, "trial", true, some e, "Free trial active", none⟩

/-- Status built for an expired trial (`plan: 'trial_expired'`). -/
def trialExpiredStatus (e : DateStr) : Status :=
  ⟨false, "trial_expired", false, some e, "Trial expired", none⟩

/-- Status built when the stored trial-end date cannot be parsed. -/
def corruptStatus (e : DateStr) : Status :=
  ⟨false, "trial_expired", false, some e, "Trial expired (corrupted date)", none⟩

/-- Status built when the `/trial/check` pre-check answers
`allowed: false` (lines 318-331 of payment.js). -/
def deniedPreStatus (reason : String) : Status :=
  ⟨false, "trial_denied", false, none, "Trial not available",
    some (if reason = "device_already_used"
      then "This device has already used a free trial"
      else "A trial has already been used from this network")⟩

/-- Status built when `startTrial` threw a message recognised as a
server denial (lines 361-372). -/
def deniedErrStatus (msg : String) : Status :=
  ⟨false, "trial_denied", false, none, "Trial not available", some msg⟩

/-- Status built when `startTrial` threw a message not recognised as a
denial, i.e. a network / server failure (lines 373-385). -/
def networkErrStatus (msg : String) : Status :=
  ⟨false, "error", false, none, "Unable to verify trial status", some msg⟩

/-- The denial message `startTrial` throws for a disallowed trial
(lines 440-451). -/
def denialMessage (r : TrialCheckResp) : String :=
  if r.reason = "device_already_used" then
    "This device has already used a free trial on " ++ toLocaleDateString r.usedAt ++
      ". Please upgrade to continue."
  else if r.reason = "ip_limit_exceeded" then
    jsOr r.message "A trial has already been used from this network. Please upgrade to continue using ThreadAi."
  else if r.reason = "server_error" then
    "Unable to verify trial eligibility. Please try again later."
  else
    "You have already used your free trial. Please upgrade to continue using ThreadAi."

/-- The denial classifier applied to a `startTrial` error message
(lines 357-359). -/
def isDeniedMsg (msg : String) : Bool :=
  jsIncludes msg "already used" || jsIncludes msg "limit exceeded" ||
    jsIncludes msg "upgrade to continue"

/-- Embedding of `startTrial` (payment.js lines 418-518).  On success it
returns the trial record written, the updated storage, and the write
events; a thrown error is `Except.error` with the thrown message.
Every throw in the source occurs before the `chrome.storage.local.set`,
so error results carry no writes. -/
def startTrial (st : Storage) (chk : Except String (HttpResp TrialCheckResp))
    (reg : Except String (HttpResp RegisterResp)) (now : Int) :
    Except String (TrialRecord × Storage × List Event) :=
  match st.deviceToken with
  | none => .error "No device token available"
  | some d =>
    match chk with
    | .error e => .error e
    | .ok resp =>
      if resp.ok = false then
        .error "Unable to connect to trial verification server. Please check your internet connection and try again."
      else if resp.body.allowed = false then
        .error (denialMessage resp.body)
      else
        let trialEndsAt : Int := now + TRIAL_DURATION_DAYS * msPerDay
        match reg with
        | .error e => .error e
        | .ok h =>
          if h.ok = false then
            .error "Failed to register trial with server. Please try again."
          else if h.body.success = false then
            .error (jsOr h.body.error "Trial registration failed")
          else
            let td : TrialRecord := ⟨d, some trialEndsAt, some now, true, true, false⟩
            .ok (td, { st with trial := some td }, [.writeTrial td])

/-- Embedding of lines 339-386: invoke `startTrial` and convert its
outcome into a terminal status. -/
def runStartTrial (st : Storage) (O : Oracle) (now : Int) : RunResult :=
  match startTrial st O.stCheck O.register now with
  | .ok (td, st2, evs) =>
      finish (trialActiveStatus td.trialEndsAt) st2 (.callStartTrial :: evs) now
  | .error msg =>
      if isDeniedMsg msg then finish (deniedErrStatus msg) st [.callStartTrial] now
      else finish (networkErrStatus msg) st [.callStartTrial] now

/-- Embedding of lines 306-386: the `/trial/check` pre-check followed by
`startTrial`.  A non-ok or failed pre-check falls through to
`startTrial`; an explicit `allowed: false` answer is terminal. -/
def newTrialFlow (st : Storage) (O : Oracle) (now : Int) : RunResult :=
  match st.deviceToken with
  | none => runStartTrial st O now
  | some _ =>
    match O.preCheck with
    | .error _ => addEvents [.callPreCheck] (runStartTrial st O now)
    | .ok resp =>
      if resp.ok then
        if resp.body.allowed then addEvents [.callPreCheck] (runStartTrial st O now)
        else finish (deniedPreStatus resp.body.reason) st [.callPreCheck] now
      else addEvents [.callPreCheck] (runStartTrial st O now)

/-- Embedding of lines 236-301: evaluate the locally stored trial record
(closed-open expiry, corrupt dates treated as expired without deleting
the record), falling through to the new-trial flow when none exists. -/
def checkLocalTrial (st : Storage) (O : Oracle) (now : Int) : RunResult :=
  match st.trial with
  | some lt =>
    match lt.trialEndsAt with
    | none => finish (corruptStatus lt.trialEndsAt) st [] now
    | some te =>
      if now < te then finish (trialActiveStatus lt.trialEndsAt) st [] now
      else finish (trialExpiredStatus lt.trialEndsAt) st [] now
  | none => newTrialFlow st O now

/-- Embedding of lines 225-301: local subscription short-circuit, then
local trial evaluation. -/
def afterTrialStatus (st : Storage) (O : Oracle) (now : Int) : RunResult :=
  match st.subscription with
  | some ls =>
    if ls.active then finish ls st [] now
    else checkLocalTrial st O now
  | none => checkLocalTrial st O now

/-- Embedding of lines 162-301: the `/trial/status` restore step (which
writes the restored record locally and evaluates its expiry with the
same closed-open comparison), then the local fallbacks. -/
def afterServer (st : Storage) (O : Oracle) (now : Int) : RunResult :=
  match st.deviceToken, O.trialStatus with
  | some d, .ok r =>
    if r.hasTrial then
      let td : TrialRecord := ⟨d, r.trialEndsAt, r.startedAt, true, true, true⟩
      let st2 := { st with trial := some td }
      match r.trialEndsAt with
      | some te =>
        if now < te then
          finish (trialActiveStatus r.trialEndsAt) st2 [.callTrialStatus, .writeTrial td] now
        else
          finish (trialExpiredStatus r.trialEndsAt) st2 [.callTrialStatus, .writeTrial td] now
      | none =>
        finish (trialExpiredStatus r.trialEndsAt) st2 [.callTrialStatus, .writeTrial td] now
    else addEvents [.callTrialStatus] (afterTrialStatus st O now)
  | some _, .error _ => addEvents [.callTrialStatus] (afterTrialStatus st O now)
  | none, _ => afterTrialStatus st O now

/-- Embedding of lines 144-386 (everything past the cache check): the
`/check` call through `_checkServerStatus` (which stores the response
as the local subscription record before testing `active`), then the
trial pipeline. -/
def getUnifiedFresh (st : Storage) (O : Oracle) (now : Int) : RunResult :=
  match st.deviceToken, O.check with
  | some _, .ok data =>
    let st1 := { st with subscription := some data }
    if data.active then finish data st1 [.callCheck, .writeSub data] now
    else addEvents [.callCheck, .writeSub data] (afterServer st1 O now)
  | some _, .error _ => addEvents [.callCheck] (afterServer st O now)
  | none, _ => afterServer st O now

/-- The cache-freshness test of lines 138-141. -/
def cacheHit (c : Cache) (now : Int) (force : Bool) : Bool :=
  !force && c.statusCache.isSome && decide (now - c.cacheTimestamp < CACHE_DURATION)

/-- Embedding of `getUnifiedSubscriptionStatus(forceRefresh)`
(payment.js lines 135-401).  The function is total over every
combination of storage contents and remote outcomes, mirroring the
source, whose every remote failure is caught inside the function and
converted into a terminal status. -/
def getUnifiedSubscriptionStatus (st : Storage) (c : Cache) (O : Oracle)
    (now : Int) (force : Bool) : RunResult :=
  match c.statusCache with
  | some s =>
    if !force && decide (now - c.cacheTimestamp < CACHE_DURATION) then ⟨s, c, st, []⟩
    else getUnifiedFresh st O now
  | none => getUnifiedFresh st O now

/-- The allow / deny decision of `canUseExtension`. -/
structure UseDecision where
  canUse : Bool
  reason : String
deriving DecidableEq

/-- The `isServerDenial` test on `status.errorDetails`
(payment.js lines 539-544); an absent or empty detail is falsy. -/
def isServerDenialMsg (details : Option String) : Bool :=
  match details with
  | none => false
  | some m =>
    jsIncludes m "already used" || jsIncludes m "Too many trials" ||
      jsIncludes m "Please upgrade" || jsIncludes m "upgrade to continue"

/-- The status-to-decision mapping of `canUseExtension`
(payment.js lines 528-554). -/
def useDecision (s : Status) : UseDecision :=
  if s.active then ⟨true, "subscription"⟩
  else if s.isTrialing then ⟨true, "trial"⟩
  else if s.plan = "error" && s.message = "Error starting trial" then
    if isServerDenialMsg s.errorDetails then ⟨false, "trial_denied"⟩
    else ⟨true, "trial_fallback"⟩
  else ⟨false, "trial_expired"⟩

/-- Embedding of `canUseExtension` (payment.js lines 523-559): run
`getUnifiedSubscriptionStatus()` with the default `forceRefresh = false`
and map the status to a decision. -/
def canUseExtension (st : Storage) (c : Cache) (O : Oracle) (now : Int) :
    UseDecision × RunResult :=
  let r := getUnifiedSubscriptionStatus st c O now false
  (useDecision r.status, r)

/-- A fetch response as far as `makeWorkerRequest` inspects it. -/
structure WResp (α : Type) where
  ok : Bool
  status : Nat
  statusText : String
  body : α
deriving DecidableEq

/-- Trace of one `makeWorkerRequest` run: the final outcome, the number
of attempts made, and the milliseconds waited between attempts. -/
structure ReqTrace (α : Type) where
  result : Except String α
  attempts : Nat
  delays : List Nat

/-- Outcome of a single attempt of the `makeWorkerRequest` loop
(lines 750-762): a transport failure propagates, a non-ok response
becomes a thrown `HTTP <status>: <text>` error (no distinction between
4xx and 5xx — only `response.ok` is consulted), an ok response yields
its parsed body. -/
def attemptOutcome {α : Type} (r : Except String (WResp α)) : Except String α :=
  match r with
  | .error e => .error e
  | .ok resp =>
    if resp.ok then .ok resp.body
    else .error ("HTTP " ++ toString resp.status ++ ": " ++ resp.statusText)

/-- The retry loop of `makeWorkerRequest` (lines 748-775): `attempt` is
the 1-based attempt counter, the second argument the number of attempts
still permitted, the third the `lastError` accumulator thrown when the
loop ends.  A delay of `2 ^ (attempt - 1) * 1000` ms is taken only when
another attempt remains. -/
def workerGo {α : Type} (f : Nat → Except String (WResp α)) :
    Nat → Nat → String → ReqTrace α
  | _, 0, lastError => ⟨.error lastError, 0, []⟩
  | attempt, remaining + 1, _ =>
    match attemptOutcome (f attempt) with
    | .ok v => ⟨.ok v, 1, []⟩
    | .error e =>
      if remaining = 0 then ⟨.error e, 1, []⟩
      else
        let rest := workerGo f (attempt + 1) remaining e
        ⟨rest.result, rest.attempts + 1, (2 ^ (attempt - 1) * 1000) :: rest.delays⟩

/-- The content-type actually sent: the code spreads `options.headers`
after its own `Content-Type: application/json` entry, so a caller
override wins and the JSON header is used otherwise.  No caller in the
repository passes any headers. -/
def effectiveContentType (override : Option String) : String :=
  match override with
  | some v => v
  | none => "application/json"

/-- Embedding of `makeWorkerRequest` (payment.js lines 744-776): up to 3
attempts, each fetch receiving the effective content-type header. -/
def makeWorkerRequest {α : Type} (fetchFn : Nat → String → Except String (WResp α))
    (ctOverride : Option String) : ReqTrace α :=
  workerGo (fun k => fetchFn k (effectiveContentType ctOverride)) 1 3 ""

/-- Embedding of `generateCheckoutUrl(email, plan)` (payment.js lines
639-656), parameterised by the `encodeURIComponent` builtin.  The
function throws when no device token exists and otherwise builds the
checkout URL from the email and device token. -/
def generateCheckoutUrl (enc : String → String) (deviceToken : Option String)
    (email plan : String) : Except String String :=
  match deviceToken with
  | none => .error "No device token available for checkout"
  | some d =>
    .ok ("https://thread-ai.lemonsqueezy.com/buy/2dca2dc4-9d06-4650-9ad3-983dec0c33dd?checkout[email]="
      ++ enc email ++ "&checkout[custom][deviceToken]=" ++ enc d)

/-- A device that is fully offline: every remote call throws. -/
def offlineOracle : Oracle :=
  ⟨.error "offline", .error "offline", .error "offline", .error "offline",
    .error "offline"⟩

/-- Remote answers for a device whose `/trial/check` pre-check denies a
new trial because the device was already used. -/
def deniedPreOracle : Oracle :=
  ⟨.error "offline", .error "offline",
    .ok ⟨true, ⟨false, "device_already_used", none, none⟩⟩,
    .ok ⟨true, ⟨false, "device_already_used", none, none⟩⟩, .error "offline"⟩

/-- Remote answers where every call fails with the browser's transport
error message. -/
def fetchFailOracle : Oracle :=
  ⟨.error "Failed to fetch", .error "Failed to fetch", .error "Failed to fetch",
    .error "Failed to fetch", .error "Failed to fetch"⟩

/-! Helper predicates naming the conditions under which the reconciler
falls through its successive stages; each mirrors one discriminating
test of the source. -/

/-- The `/check` call succeeded and reported `active = true`
(line 155); `false` covers a missing device token, a failed call, and
an inactive answer. -/
def serverSaysActive (st : Storage) (O : Oracle) : Bool :=
  match st.deviceToken, O.check with
  | some _, .ok s => s.active
  | _, _ => false

/-- The `/trial/status` call succeeded and reported `hasTrial = true`
(line 172). -/
def serverHasTrial (st : Storage) (O : Oracle) : Bool :=
  match st.deviceToken, O.trialStatus with
  | some _, .ok r => r.hasTrial
  | _, _ => false

/-- Storage after the `/check` step, which stores a successful response
as the local subscription record (line 124). -/
def stAfterCheck (st : Storage) (O : Oracle) : Storage :=
  match st.deviceToken, O.check with
  | some _, .ok data => { st with subscription := some data }
  | _, _ => st

/-- Events of the `/check` step. -/
def checkEvents (st : Storage) (O : Oracle) : List Event :=
  match st.deviceToken, O.check with
  | some _, .ok data => [.callCheck, .writeSub data]
  | some _, .error _ => [.callCheck]
  | none, _ => []

/-- Events of the `/trial/status` step when no trial is restored. -/
def tsEvents (st : Storage) (O : Oracle) : List Event :=
  match st.deviceToken, O.trialStatus with
  | some _, _ => [.callTrialStatus]
  | none, _ => []

/-- The locally stored subscription record claims `active = true`
(line 228). -/
def localSubActiveNow (st : Storage) : Bool :=
  match st.subscription with
  | some ls => ls.active
  | none => false

/-- The local-subscription test as it is reached in a run, i.e. after
the `/check` step may have overwritten the stored record. -/
def localSubActiveAfter (st : Storage) (O : Oracle) : Bool :=
  localSubActiveNow (stAfterCheck st O)

/-- A fetch that fails on every attempt with a transport error. -/
def alwaysFailFetch : Nat → String → Except String (WResp Unit) :=
  fun k _ => .error ("transport failure on attempt " ++ toString k)

/-- The disjunction of terminal shapes a returned status can have: an
active subscription, an unexpired trial, or one of the expired /
denied / error plans. -/
def terminalStatus (s : Status) : Prop :=
  s.active = true ∨ s.isTrialing = true ∨ s.plan = "trial_expired" ∨
    s.plan = "trial_denied" ∨ s.plan = "error"

/-- The `/trial/register` call answered ok with `success = true`. -/
def registerConfirmed (O : Oracle) : Prop :=
  ∃ hr, O.register = Except.ok hr ∧ hr.ok = true ∧ hr.body.success = true

/-- The `/trial/status` call answered with `hasTrial = true`, i.e. the
server itself reported an existing (previously registered) trial. -/
def trialRestoredConfirmed (O : Oracle) : Prop :=
  ∃ r, O.trialStatus = Except.ok r ∧ r.hasTrial = true

/-- Remote answers that approve and confirm a brand-new trial while the
other endpoints fail. -/
def trialGrantOracle : Oracle :=
  ⟨.error "offline", .error "offline", .error "offline",
    .ok ⟨true, ⟨true, "", none, none⟩⟩, .ok ⟨true, ⟨true, none⟩⟩⟩

@[simp] theorem addEvents_status (pre : List Event) (r : RunResult) :
    (addEvents pre r).status = r.status := rfl

@[simp] theorem addEvents_cache (pre : List Event) (r : RunResult) :
    (addEvents pre r).cache = r.cache := rfl

@[simp] theorem addEvents_storage (pre : List Event) (r : RunResult) :
    (addEvents pre r).storage = r.storage := rfl

@[simp] theorem addEvents_events (pre : List Event) (r : RunResult) :
    (addEvents pre r).events = pre ++ r.events := rfl

@[simp] theorem addEvents_nil (r : RunResult) : addEvents [] r = r := rfl

theorem addEvents_append (a b : List Event) (r : RunResult) :
    addEvents a (addEvents b r) = addEvents (a ++ b) r := by
  simp [addEvents]

@[simp] theorem stAfterCheck_deviceToken (st : Storage) (O : Oracle) :
    (stAfterCheck st O).deviceToken = st.deviceToken := by
  cases hd : st.deviceToken <;> cases hc : O.check <;> simp [stAfterCheck, hd, hc]

@[simp] theorem stAfterCheck_trial (st : Storage) (O : Oracle) :
    (stAfterCheck st O).trial = st.trial := by
  cases hd : st.deviceToken <;> cases hc : O.check <;> simp [stAfterCheck, hd, hc]

theorem stAfterCheck_idem (st : Storage) (O : Oracle) :
    stAfterCheck (stAfterCheck st O) O = stAfterCheck st O := by
  cases hd : st.deviceToken <;> cases hc : O.check <;>
    simp [stAfterCheck, hd, hc]

theorem serverSaysActive_stAfterCheck (st : Storage) (O : Oracle) :
    serverSaysActive (stAfterCheck st O) O = serverSaysActive st O := by
  unfold serverSaysActive
  rw [stAfterCheck_deviceToken]

theorem serverHasTrial_stAfterCheck (st : Storage) (O : Oracle) :
    serverHasTrial (stAfterCheck st O) O = serverHasTrial st O := by
  unfold serverHasTrial
  rw [stAfterCheck_deviceToken]

theorem checkEvents_stAfterCheck (st : Storage) (O : Oracle) :
    checkEvents (stAfterCheck st O) O = checkEvents st O := by
  unfold checkEvents
  rw [stAfterCheck_deviceToken]

theorem tsEvents_stAfterCheck (st : Storage) (O : Oracle) :
    tsEvents (stAfterCheck st O) O = tsEvents st O := by
  unfold tsEvents
  rw [stAfterCheck_deviceToken]

/-- A false cache test makes the call recompute from the network. -/
theorem cacheMiss_eq (st : Storage) (c : Cache) (O : Oracle) (now : Int)
    (force : Bool) (h : cacheHit c now force = false) :
    getUnifiedSubscriptionStatus st c O now force = getUnifiedFresh st O now := by
  unfold getUnifiedSubscriptionStatus
  unfold cacheHit at h
  cases hc : c.statusCache with
  | none => rfl
  | some s =>
    rw [hc] at h
    simp only [Option.isSome_some, Bool.and_true, Bool.true_and] at h
    simp [h]

/-- With `forceRefresh = true` the cache is never consulted. -/
theorem force_eq_fresh (st : Storage) (c : Cache) (O : Oracle) (now : Int) :
    getUnifiedSubscriptionStatus st c O now true = getUnifiedFresh st O now := by
  unfold getUnifiedSubscriptionStatus
  cases c.statusCache <;> simp

/-- When the `/check` step does not report an active subscription, the
run continues into the trial pipeline on the post-`/check` storage. -/
theorem fresh_notActive (st : Storage) (O : Oracle) (now : Int)
    (h : serverSaysActive st O = false) :
    getUnifiedFresh st O now =
      addEvents (checkEvents st O) (afterServer (stAfterCheck st O) O now) := by
  unfold getUnifiedFresh serverSaysActive stAfterCheck checkEvents at *
  cases hd : st.deviceToken <;> cases hc : O.check <;> simp_all

/-- When the `/trial/status` step restores no trial, the run continues
into the local fallbacks. -/
theorem afterServer_noTrial (st : Storage) (O : Oracle) (now : Int)
    (h : serverHasTrial st O = false) :
    afterServer st O now = addEvents (tsEvents st O) (afterTrialStatus st O now) := by
  unfold afterServer serverHasTrial tsEvents at *
  cases hd : st.deviceToken <;> cases hc : O.trialStatus <;> simp_all

/-- When no active local subscription is stored, the run continues into
the local trial evaluation. -/
theorem afterTrialStatus_noSub (st : Storage) (O : Oracle) (now : Int)
    (h : localSubActiveNow st = false) :
    afterTrialStatus st O now = checkLocalTrial st O now := by
  unfold afterTrialStatus localSubActiveNow at *
  cases hs : st.subscription <;> simp_all

/-- Composition of the fall-through lemmas: under a cache miss, no
remote active subscription, no remote trial and no active local
subscription, the run is the local trial evaluation on the
post-`/check` storage. -/
theorem reach_local (st : Storage) (c : Cache) (O : Oracle) (now : Int)
    (force : Bool)
    (hc : cacheHit c now force = false)
    (hsa : serverSaysActive st O = false)
    (hst : serverHasTrial st O = false)
    (hls : localSubActiveAfter st O = false) :
    getUnifiedSubscriptionStatus st c O now force =
      addEvents (checkEvents st O ++ tsEvents st O)
        (checkLocalTrial (stAfterCheck st O) O now) := by
  rw [cacheMiss_eq st c O now force hc, fresh_notActive st O now hsa,
    afterServer_noTrial (stAfterCheck st O) O now
      ((serverHasTrial_stAfterCheck st O).trans hst),
    afterTrialStatus_noSub (stAfterCheck st O) O now hls,
    tsEvents_stAfterCheck, addEvents_append]

/-- Claim C10: the URL returned by `generateCheckoutUrl(email, plan)`
does not depend on the `plan` argument — for every encoder, email,
device token and any two plan values, the results coincide (only the
email and the device token appear in the URL). -/
theorem checkout_url_ignores_plan (enc : String → String)
    (tok : Option String) (email p1 p2 : String) :
    generateCheckoutUrl enc tok email p1 = generateCheckoutUrl enc tok email p2 := by
  cases tok <;> rfl

theorem workerGo_ok {α : Type} (g : Nat → Except String (WResp α)) (a r : Nat)
    (le : String) (v : α) (h : attemptOutcome (g a) = .ok v) :
    workerGo g a (r + 1) le = ⟨.ok v, 1, []⟩ := by
  simp [workerGo, h]

theorem workerGo_err_last {α : Type} (g : Nat → Except String (WResp α)) (a : Nat)
    (le e : String) (h : attemptOutcome (g a) = .error e) :
    workerGo g a 1 le = ⟨.error e, 1, []⟩ := by
  simp [workerGo, h]

theorem workerGo_err_step {α : Type} (g : Nat → Except String (WResp α)) (a r : Nat)
    (le e : String) (h : attemptOutcome (g a) = .error e) :
    workerGo g a (r + 2) le =
      ⟨(workerGo g (a + 1) (r + 1) e).result,
        (workerGo g (a + 1) (r + 1) e).attempts + 1,
        (2 ^ (a - 1) * 1000) :: (workerGo g (a + 1) (r + 1) e).delays⟩ := by
  simp [workerGo, h]

/-- Claim C7 (amended): `makeWorkerRequest` makes at most 3 attempts,
retries uniformly on any non-ok response or transport failure (only
`response.ok` is consulted, so 4xx and 5xx are not distinguished),
sends the JSON content-type header on every attempt when the caller
supplies none, waits 1s and then 2s between the attempts (the delay
before retry k+1 is 2^(k-1)·1000 ms; there is no 4s wait because there
is no fourth attempt), and throws the last error after exhausting the
retries. -/
theorem worker_request_retry_spec {α : Type}
    (f : Nat → String → Except String (WResp α)) :
    effectiveContentType none = "application/json" ∧
    (∀ r : WResp α, r.ok = false → attemptOutcome (Except.ok r) =
        Except.error ("HTTP " ++ toString r.status ++ ": " ++ r.statusText)) ∧
    (makeWorkerRequest f none).attempts ≤ 3 ∧
    (∀ v, attemptOutcome (f 1 "application/json") = .ok v →
      makeWorkerRequest f none = ⟨.ok v, 1, []⟩) ∧
    (∀ e1 v, attemptOutcome (f 1 "application/json") = .error e1 →
      attemptOutcome (f 2 "application/json") = .ok v →
      makeWorkerRequest f none = ⟨.ok v, 2, [1000]⟩) ∧
    (∀ e1 e2 v, attemptOutcome (f 1 "application/json") = .error e1 →
      attemptOutcome (f 2 "application/json") = .error e2 →
      attemptOutcome (f 3 "application/json") = .ok v →
      makeWorkerRequest f none = ⟨.ok v, 3, [1000, 2000]⟩) ∧
    (∀ e1 e2 e3, attemptOutcome (f 1 "application/json") = .error e1 →
      attemptOutcome (f 2 "application/json") = .error e2 →
      attemptOutcome (f 3 "application/json") = .error e3 →
      makeWorkerRequest f none = ⟨.error e3, 3, [1000, 2000]⟩) := by
  have hct : effectiveContentType none = "application/json" := rfl
  have hmk : ∀ g : Nat → Except String (WResp α),
      makeWorkerRequest f none = workerGo (fun k => f k "application/json") 1 3 "" :=
    fun _ => rfl
  set g : Nat → Except String (WResp α) := fun k => f k "application/json" with hg
  have run1 : ∀ v, attemptOutcome (g 1) = .ok v →
      makeWorkerRequest f none = ⟨.ok v, 1, []⟩ := by
    intro v h1
    rw [hmk g]
    exact workerGo_ok g 1 2 "" v h1
  have run2 : ∀ e1 v, attemptOutcome (g 1) = .error e1 → attemptOutcome (g 2) = .ok v →
      makeWorkerRequest f none = ⟨.ok v, 2, [1000]⟩ := by
    intro e1 v h1 h2
    rw [hmk g]
    rw [workerGo_err_step g 1 1 "" e1 h1, workerGo_ok g 2 1 e1 v h2]
    rfl
  have run3 : ∀ e1 e2 v, attemptOutcome (g 1) = .error e1 →
      attemptOutcome (g 2) = .error e2 → attemptOutcome (g 3) = .ok v →
      makeWorkerRequest f none = ⟨.ok v, 3, [1000, 2000]⟩ := by
    intro e1 e2 v h1 h2 h3
    rw [hmk g]
    rw [workerGo_err_step g 1 1 "" e1 h1, workerGo_err_step g 2 0 e1 e2 h2,
      workerGo_ok g 3 0 e2 v h3]
    rfl
  have run4 : ∀ e1 e2 e3, attemptOutcome (g 1) = .error e1 →
      attemptOutcome (g 2) = .error e2 → attemptOutcome (g 3) = .error e3 →
      makeWorkerRequest f none = ⟨.error e3, 3, [1000, 2000]⟩ := by
    intro e1 e2 e3 h1 h2 h3
    rw [hmk g]
    rw [workerGo_err_step g 1 1 "" e1 h1, workerGo_err_step g 2 0 e1 e2 h2,
      workerGo_err_last g 3 e2 e3 h3]
    rfl
  refine ⟨hct, fun r hr => by simp [attemptOutcome, hr], ?_, run1, run2, run3, run4⟩
  cases h1 : attemptOutcome (g 1) with
  | ok v => simp [run1 v h1]
  | error e1 =>
    cases h2 : attemptOutcome (g 2) with
    | ok v => simp [run2 e1 v h1 h2]
    | error e2 =>
      cases h3 : attemptOutcome (g 3) with
      | ok v => simp [run3 e1 e2 v h1 h2 h3]
      | error e3 => simp [run4 e1 e2 e3 h1 h2 h3]

/-- Claim C7 counterexample: on a run whose three attempts all fail,
the waits taken between attempts are 1s and 2s only — not the claimed
schedule (1s, 2s, 4s); no 4s wait ever occurs, since there is no fourth
attempt. -/
theorem retry_delay_schedule_counterexample :
    (makeWorkerRequest alwaysFailFetch none).delays = [1000, 2000] ∧
    (makeWorkerRequest alwaysFailFetch none).delays ≠ [1000, 2000, 4000] ∧
    4000 ∉ (makeWorkerRequest alwaysFailFetch none).delays ∧
    (makeWorkerRequest alwaysFailFetch none).attempts = 3 ∧
    (makeWorkerRequest alwaysFailFetch none).result =
      .error "transport failure on attempt 3" :=
  ⟨rfl, by decide, by decide, rfl, rfl⟩

/-- Witness for the amended claim C7: the all-attempts-fail clause of
`worker_request_retry_spec` applied to a concrete fetch function. -/
theorem worker_request_retry_spec_witness :
    makeWorkerRequest alwaysFailFetch none =
      ⟨.error "transport failure on attempt 3", 3, [1000, 2000]⟩ :=
  (worker_request_retry_spec alwaysFailFetch).2.2.2.2.2.2
    "transport failure on attempt 1" "transport failure on attempt 2"
    "transport failure on attempt 3" rfl rfl rfl

/-- Claim C3: whenever the remote subscription check actually runs
(the cache is not hit) and succeeds reporting `active = true`,
`getUnifiedSubscriptionStatus` returns that server status verbatim,
regardless of any local trial record (trialing, expired, denied or
corrupt) or local subscription record. -/
theorem remote_active_overrides_local (st : Storage) (c : Cache) (O : Oracle)
    (now : Int) (force : Bool) (d : String) (s : Status)
    (hc : cacheHit c now force = false)
    (hdev : st.deviceToken = some d)
    (hchk : O.check = Except.ok s)
    (hact : s.active = true) :
    (getUnifiedSubscriptionStatus st c O now force).status = s := by
  rw [cacheMiss_eq st c O now force hc]
  simp [getUnifiedFresh, hdev, hchk, hact, finish]

/-- Witness for claim C3: a device whose storage still holds an expired
local trial gets the remote active status verbatim. -/
theorem remote_active_overrides_local_witness :
    (getUnifiedSubscriptionStatus
      ⟨some "device_a", none, some ⟨"device_a", some 10, some 0, true, true, false⟩⟩
      ⟨none, 0⟩
      ⟨.ok ⟨true, "pro-monthly", false, none, "", none⟩, .error "offline",
        .error "offline", .error "offline", .error "offline"⟩
      100 false).status = ⟨true, "pro-monthly", false, none, "", none⟩ :=
  remote_active_overrides_local
    ⟨some "device_a", none, some ⟨"device_a", some 10, some 0, true, true, false⟩⟩
    ⟨none, 0⟩
    ⟨.ok ⟨true, "pro-monthly", false, none, "", none⟩, .error "offline",
      .error "offline", .error "offline", .error "offline"⟩
    100 false "device_a" ⟨true, "pro-monthly", false, none, "", none⟩
    rfl rfl rfl rfl

theorem finish_selfCached (s : Status) (st : Storage) (evs : List Event) (now : Int) :
    (finish s st evs now).cache.statusCache = some (finish s st evs now).status := rfl

theorem runStartTrial_selfCached (st : Storage) (O : Oracle) (now : Int) :
    (runStartTrial st O now).cache.statusCache = some (runStartTrial st O now).status := by
  unfold runStartTrial
  cases h : startTrial st O.stCheck O.register now with
  | ok v =>
    obtain ⟨td, st2, evs⟩ := v
    simp [finish]
  | error msg => by_cases hd : isDeniedMsg msg <;> simp [hd, finish]

theorem newTrialFlow_selfCached (st : Storage) (O : Oracle) (now : Int) :
    (newTrialFlow st O now).cache.statusCache = some (newTrialFlow st O now).status := by
  unfold newTrialFlow
  cases hd : st.deviceToken with
  | none => exact runStartTrial_selfCached st O now
  | some d =>
    cases hp : O.preCheck with
    | error e => simpa using runStartTrial_selfCached st O now
    | ok resp =>
      by_cases ho : resp.ok <;> by_cases ha : resp.body.allowed <;>
        simp [ho, ha, finish] <;> simpa using runStartTrial_selfCached st O now

theorem checkLocalTrial_selfCached (st : Storage) (O : Oracle) (now : Int) :
    (checkLocalTrial st O now).cache.statusCache =
      some (checkLocalTrial st O now).status := by
  unfold checkLocalTrial
  cases ht : st.trial with
  | none => exact newTrialFlow_selfCached st O now
  | some lt =>
    cases hte : lt.trialEndsAt with
    | none => simp [hte, finish]
    | some te => by_cases hlt : now < te <;> simp [hte, hlt, finish]

theorem afterTrialStatus_selfCached (st : Storage) (O : Oracle) (now : Int) :
    (afterTrialStatus st O now).cache.statusCache =
      some (afterTrialStatus st O now).status := by
  unfold afterTrialStatus
  cases hs : st.subscription with
  | none => exact checkLocalTrial_selfCached st O now
  | some ls =>
    by_cases ha : ls.active <;> simp [ha, finish] <;>
      simpa using checkLocalTrial_selfCached st O now

theorem afterServer_selfCached (st : Storage) (O : Oracle) (now : Int) :
    (afterServer st O now).cache.statusCache = some (afterServer st O now).status := by
  unfold afterServer
  cases hd : st.deviceToken with
  | none => exact afterTrialStatus_selfCached st O now
  | some d =>
    cases hts : O.trialStatus with
    | error e => simpa using afterTrialStatus_selfCached st O now
    | ok r =>
      by_cases hh : r.hasTrial
      · cases hte : r.trialEndsAt with
        | none => simp [hh, hte, finish]
        | some te => by_cases hlt : now < te <;> simp [hh, hte, hlt, finish]
      · simp [hh]
        simpa using afterTrialStatus_selfCached st O now

theorem fresh_selfCached (st : Storage) (O : Oracle) (now : Int) :
    (getUnifiedFresh st O now).cache.statusCache =
      some (getUnifiedFresh st O now).status := by
  unfold getUnifiedFresh
  cases hd : st.deviceToken with
  | none => exact afterServer_selfCached st O now
  | some d =>
    cases hc : O.check with
    | error e => simpa using afterServer_selfCached st O now
    | ok data =>
      by_cases ha : data.active <;> simp [ha, finish] <;>
        simpa using afterServer_selfCached _ O now

/-- Every run leaves its own returned status in the cache. -/
theorem getUnified_selfCached (st : Storage) (c : Cache) (O : Oracle) (now : Int)
    (force : Bool) :
    (getUnifiedSubscriptionStatus st c O now force).cache.statusCache =
      some (getUnifiedSubscriptionStatus st c O now force).status := by
  unfold getUnifiedSubscriptionStatus
  cases hc : c.statusCache with
  | none => exact fresh_selfCached st O now
  | some s =>
    by_cases h : (!force && decide (now - c.cacheTimestamp < CACHE_DURATION)) = true
    · simp [h, hc]
    · simp only [Bool.not_eq_true] at h
      simp [h]
      exact fresh_selfCached st O now

/-- Claim C4: if `forceRefresh` is false and a cached status younger
than 30 s exists, the cached status is returned verbatim with no remote
call and no state change; a second `getStatus(false)` inside the window
of the first call's cache entry returns the identical status object
with no remote call; and `getStatus(true)` never answers from the
cache (its result does not depend on the cache at all). -/
theorem cache_law :
    (∀ (st : Storage) (c : Cache) (O : Oracle) (now : Int) (force : Bool) (s : Status),
      c.statusCache = some s → force = false →
      now - c.cacheTimestamp < CACHE_DURATION →
      getUnifiedSubscriptionStatus st c O now force = ⟨s, c, st, []⟩) ∧
    (∀ (st : Storage) (c : Cache) (O O2 : Oracle) (now now2 : Int),
      now2 - (getUnifiedSubscriptionStatus st c O now false).cache.cacheTimestamp <
          CACHE_DURATION →
      getUnifiedSubscriptionStatus (getUnifiedSubscriptionStatus st c O now false).storage
          (getUnifiedSubscriptionStatus st c O now false).cache O2 now2 false =
        ⟨(getUnifiedSubscriptionStatus st c O now false).status,
          (getUnifiedSubscriptionStatus st c O now false).cache,
          (getUnifiedSubscriptionStatus st c O now false).storage, []⟩) ∧
    (∀ (st : Storage) (c : Cache) (O : Oracle) (now : Int),
      getUnifiedSubscriptionStatus st c O now true = getUnifiedFresh st O now) := by
  have part1 : ∀ (st : Storage) (c : Cache) (O : Oracle) (now : Int) (force : Bool)
      (s : Status), c.statusCache = some s → force = false →
      now - c.cacheTimestamp < CACHE_DURATION →
      getUnifiedSubscriptionStatus st c O now force = ⟨s, c, st, []⟩ := by
    intro st c O now force s hc hf hfresh
    unfold getUnifiedSubscriptionStatus
    rw [hc, hf]
    simp [hfresh]
  refine ⟨part1, ?_, force_eq_fresh⟩
  intro st c O O2 now now2 hfresh
  exact part1 _ _ O2 now2 false _ (getUnified_selfCached st c O now false) rfl hfresh

/-- Witness for claim C4: a fresh cache entry is returned verbatim, a
repeat call inside the window returns the identical object, and a
forced call ignores the cache. -/
theorem cache_law_witness :
    getUnifiedSubscriptionStatus ⟨none, none, none⟩
        ⟨some (trialExpiredStatus none), 100⟩
        ⟨.error "offline", .error "offline", .error "offline", .error "offline",
          .error "offline"⟩ 110 false =
      ⟨trialExpiredStatus none, ⟨some (trialExpiredStatus none), 100⟩,
        ⟨none, none, none⟩, []⟩ :=
  cache_law.1 ⟨none, none, none⟩ ⟨some (trialExpiredStatus none), 100⟩
    ⟨.error "offline", .error "offline", .error "offline", .error "offline",
      .error "offline"⟩ 110 false (trialExpiredStatus none) rfl rfl (by decide)

theorem runStartTrial_terminal (st : Storage) (O : Oracle) (now : Int) :
    terminalStatus (runStartTrial st O now).status := by
  unfold runStartTrial
  cases h : startTrial st O.stCheck O.register now with
  | ok v =>
    obtain ⟨td, st2, evs⟩ := v
    simp [finish, trialActiveStatus, terminalStatus]
  | error msg =>
    by_cases hd : isDeniedMsg msg <;>
      simp [hd, finish, deniedErrStatus, networkErrStatus, terminalStatus]

theorem newTrialFlow_terminal (st : Storage) (O : Oracle) (now : Int) :
    terminalStatus (newTrialFlow st O now).status := by
  unfold newTrialFlow
  cases hd : st.deviceToken with
  | none => exact runStartTrial_terminal st O now
  | some d =>
    cases hp : O.preCheck with
    | error e => simpa using runStartTrial_terminal st O now
    | ok resp =>
      by_cases ho : resp.ok <;> by_cases ha : resp.body.allowed <;>
        simp [ho, ha, finish, deniedPreStatus, terminalStatus] <;>
        simpa [terminalStatus] using runStartTrial_terminal st O now

theorem checkLocalTrial_terminal (st : Storage) (O : Oracle) (now : Int) :
    terminalStatus (checkLocalTrial st O now).status := by
  unfold checkLocalTrial
  cases ht : st.trial with
  | none => exact newTrialFlow_terminal st O now
  | some lt =>
    cases hte : lt.trialEndsAt with
    | none => simp [hte, finish, corruptStatus, terminalStatus]
    | some te =>
      by_cases hlt : now < te <;>
        simp [hte, hlt, finish, trialActiveStatus, trialExpiredStatus, terminalStatus]

theorem afterTrialStatus_terminal (st : Storage) (O : Oracle) (now : Int) :
    terminalStatus (afterTrialStatus st O now).status := by
  unfold afterTrialStatus
  cases hs : st.subscription with
  | none => exact checkLocalTrial_terminal st O now
  | some ls =>
    by_cases ha : ls.active
    · simp [ha, finish, terminalStatus]
    · simp [ha]
      simpa [terminalStatus] using checkLocalTrial_terminal st O now

theorem afterServer_terminal (st : Storage) (O : Oracle) (now : Int) :
    terminalStatus (afterServer st O now).status := by
  unfold afterServer
  cases hd : st.deviceToken with
  | none => exact afterTrialStatus_terminal st O now
  | some d =>
    cases hts : O.trialStatus with
    | error e => simpa [terminalStatus] using afterTrialStatus_terminal st O now
    | ok r =>
      by_cases hh : r.hasTrial
      · cases hte : r.trialEndsAt with
        | none => simp [hh, hte, finish, trialExpiredStatus, terminalStatus]
        | some te =>
          by_cases hlt : now < te <;>
            simp [hh, hte, hlt, finish, trialActiveStatus, trialExpiredStatus,
              terminalStatus]
      · simp [hh]
        simpa [terminalStatus] using afterTrialStatus_terminal st O now

theorem fresh_terminal (st : Storage) (O : Oracle) (now : Int) :
    terminalStatus (getUnifiedFresh st O now).status := by
  unfold getUnifiedFresh
  cases hd : st.deviceToken with
  | none => exact afterServer_terminal st O now
  | some d =>
    cases hc : O.check with
    | error e => simpa [terminalStatus] using afterServer_terminal st O now
    | ok data =>
      by_cases ha : data.active
      · simp [ha, finish, terminalStatus]
      · simp [ha]
        simpa [terminalStatus] using afterServer_terminal _ O now

/-- Claim C9: `getUnifiedSubscriptionStatus` is total over every
combination of storage contents and remote-call outcomes (success,
non-2xx, transport failure, missing device token) — every throwing
operation of the source is caught inside the function, which the
embedding mirrors by being a total function of the failure oracle —
and the returned object is always a terminal entitlement status (an
active subscription, an unexpired trial, or one of the trial_expired /
trial_denied / error plans), or, on a cache hit, the previously cached
status. -/
theorem status_always_terminal (st : Storage) (c : Cache) (O : Oracle)
    (now : Int) (force : Bool) :
    terminalStatus (getUnifiedSubscriptionStatus st c O now force).status ∨
      (∃ s, c.statusCache = some s ∧
        (getUnifiedSubscriptionStatus st c O now force).status = s) := by
  unfold getUnifiedSubscriptionStatus
  cases hc : c.statusCache with
  | none => exact Or.inl (fresh_terminal st O now)
  | some s =>
    by_cases h : (!force && decide (now - c.cacheTimestamp < CACHE_DURATION)) = true
    · exact Or.inr ⟨s, rfl, by simp [h]⟩
    · simp only [Bool.not_eq_true] at h
      simp only [h, Bool.false_eq_true, if_false]
      exact Or.inl (fresh_terminal st O now)

theorem mem_checkEvents (st : Storage) (O : Oracle) (e : Event)
    (h : e ∈ checkEvents st O) :
    e = Event.callCheck ∨ ∃ s, e = Event.writeSub s := by
  unfold checkEvents at h
  split at h <;> simp_all <;> tauto

theorem mem_tsEvents (st : Storage) (O : Oracle) (e : Event)
    (h : e ∈ tsEvents st O) : e = Event.callTrialStatus := by
  unfold tsEvents at h
  split at h <;> simp_all

theorem mem_preEvents (st : Storage) (O : Oracle) (e : Event)
    (h : e ∈ checkEvents st O ++ tsEvents st O) :
    e = Event.callCheck ∨ (∃ s, e = Event.writeSub s) ∨ e = Event.callTrialStatus := by
  rcases List.mem_append.mp h with h1 | h2
  · rcases mem_checkEvents st O e h1 with h | h
    · exact Or.inl h
    · exact Or.inr (Or.inl h)
  · exact Or.inr (Or.inr (mem_tsEvents st O e h2))

/-- Claim C5: for a locally stored trial record with a parseable end
date, reached after a cache miss with no remote active subscription, no
remote trial and no active local subscription, the run returns a
`plan = 'trial'`, `isTrialing = true` status exactly when `now` is
strictly before the end date; at `now = trialEndsAt` the trial is
already expired — the trial interval is closed-open. -/
theorem local_trial_expiry_closed_open (st : Storage) (c : Cache) (O : Oracle)
    (now : Int) (force : Bool) (lt : TrialRecord) (te : Int)
    (hc : cacheHit c now force = false)
    (hsa : serverSaysActive st O = false)
    (hst : serverHasTrial st O = false)
    (hls : localSubActiveAfter st O = false)
    (htr : st.trial = some lt)
    (hte : lt.trialEndsAt = some te) :
    (((getUnifiedSubscriptionStatus st c O now force).status.plan = "trial" ∧
      (getUnifiedSubscriptionStatus st c O now force).status.isTrialing = true) ↔
        now < te) ∧
    (now = te → (getUnifiedSubscriptionStatus st c O now force).status =
      trialExpiredStatus (some te)) := by
  rw [reach_local st c O now force hc hsa hst hls]
  have htr2 : (stAfterCheck st O).trial = some lt := by rw [stAfterCheck_trial, htr]
  simp only [checkLocalTrial, htr2, hte, addEvents_status]
  constructor
  · by_cases hlt : now < te
    · simp [hlt, finish, trialActiveStatus]
    · simp only [hlt, if_false]
      simp [finish, trialExpiredStatus, hlt]
  · intro hnow
    have hlt : ¬ now < te := by omega
    simp [hlt, finish, hte]

/-- Witness for claim C5: a trial ending at 10 is trialing at `now = 5`
and expired at `now = 10`. -/
theorem local_trial_expiry_closed_open_witness :
    (((getUnifiedSubscriptionStatus
        ⟨some "device_d", none, some ⟨"device_d", some 10, some 0, true, true, false⟩⟩
        ⟨none, 0⟩ offlineOracle 5 false).status.plan = "trial" ∧
      (getUnifiedSubscriptionStatus
        ⟨some "device_d", none, some ⟨"device_d", some 10, some 0, true, true, false⟩⟩
        ⟨none, 0⟩ offlineOracle 5 false).status.isTrialing = true) ↔ (5 : Int) < 10) ∧
    ((10 : Int) = 10 → (getUnifiedSubscriptionStatus
        ⟨some "device_d", none, some ⟨"device_d", some 10, some 0, true, true, false⟩⟩
        ⟨none, 0⟩ offlineOracle 10 false).status = trialExpiredStatus (some 10)) :=
  ⟨(local_trial_expiry_closed_open
      ⟨some "device_d", none, some ⟨"device_d", some 10, some 0, true, true, false⟩⟩
      ⟨none, 0⟩ offlineOracle 5 false ⟨"device_d", some 10, some 0, true, true, false⟩ 10
      rfl rfl rfl rfl rfl rfl).1,
    (local_trial_expiry_closed_open
      ⟨some "device_d", none, some ⟨"device_d", some 10, some 0, true, true, false⟩⟩
      ⟨none, 0⟩ offlineOracle 10 false ⟨"device_d", some 10, some 0, true, true, false⟩ 10
      rfl rfl rfl rfl rfl rfl).2⟩

/-- Claim C6: a locally stored trial record whose end date cannot be
parsed yields a `trial_expired`, `isTrialing = false` status; the
record is not deleted, and no new trial is attempted — neither the
`/trial/check` pre-check nor `startTrial` runs, and nothing is written
to the trial key. -/
theorem corrupt_trial_date_treated_expired (st : Storage) (c : Cache) (O : Oracle)
    (now : Int) (force : Bool) (lt : TrialRecord)
    (hc : cacheHit c now force = false)
    (hsa : serverSaysActive st O = false)
    (hst : serverHasTrial st O = false)
    (hls : localSubActiveAfter st O = false)
    (htr : st.trial = some lt)
    (hte : lt.trialEndsAt = none) :
    (getUnifiedSubscriptionStatus st c O now force).status = corruptStatus none ∧
    (getUnifiedSubscriptionStatus st c O now force).status.plan = "trial_expired" ∧
    (getUnifiedSubscriptionStatus st c O now force).status.isTrialing = false ∧
    (getUnifiedSubscriptionStatus st c O now force).storage.trial = some lt ∧
    (∀ t, Event.writeTrial t ∉ (getUnifiedSubscriptionStatus st c O now force).events) ∧
    Event.callPreCheck ∉ (getUnifiedSubscriptionStatus st c O now force).events ∧
    Event.callStartTrial ∉ (getUnifiedSubscriptionStatus st c O now force).events := by
  rw [reach_local st c O now force hc hsa hst hls]
  have htr2 : (stAfterCheck st O).trial = some lt := by rw [stAfterCheck_trial, htr]
  have hck : checkLocalTrial (stAfterCheck st O) O now =
      finish (corruptStatus none) (stAfterCheck st O) [] now := by
    simp only [checkLocalTrial, htr2, hte]
  rw [hck]
  refine ⟨rfl, rfl, rfl, by rw [addEvents_storage]; show (stAfterCheck st O).trial = some lt; rw [stAfterCheck_trial, htr], ?_, ?_, ?_⟩
  · intro t ht
    rw [addEvents_events] at ht
    rw [show (finish (corruptStatus none) (stAfterCheck st O) [] now).events = [] from rfl,
      List.append_nil] at ht
    rcases mem_preEvents st O _ ht with h | ⟨s, h⟩ | h <;> simp at h
  · intro ht
    rw [addEvents_events] at ht
    rw [show (finish (corruptStatus none) (stAfterCheck st O) [] now).events = [] from rfl,
      List.append_nil] at ht
    rcases mem_preEvents st O _ ht with h | ⟨s, h⟩ | h <;> simp at h
  · intro ht
    rw [addEvents_events] at ht
    rw [show (finish (corruptStatus none) (stAfterCheck st O) [] now).events = [] from rfl,
      List.append_nil] at ht
    rcases mem_preEvents st O _ ht with h | ⟨s, h⟩ | h <;> simp at h

/-- Witness for claim C6: a record with an unparseable end date at a
device that is fully offline. -/
theorem corrupt_trial_date_treated_expired_witness :
    (getUnifiedSubscriptionStatus
        ⟨some "device_e", none, some ⟨"device_e", none, some 0, true, true, false⟩⟩
        ⟨none, 0⟩ offlineOracle 5 false).status = corruptStatus none ∧
    (getUnifiedSubscriptionStatus
        ⟨some "device_e", none, some ⟨"device_e", none, some 0, true, true, false⟩⟩
        ⟨none, 0⟩ offlineOracle 5 false).storage.trial =
      some ⟨"device_e", none, some 0, true, true, false⟩ :=
  have h := corrupt_trial_date_treated_expired
    ⟨some "device_e", none, some ⟨"device_e", none, some 0, true, true, false⟩⟩
    ⟨none, 0⟩ offlineOracle 5 false ⟨"device_e", none, some 0, true, true, false⟩
    rfl rfl rfl rfl rfl rfl
  ⟨h.1, h.2.2.2.1⟩

/-- When every stage falls through to the new-trial flow and the
`/trial/check` pre-check answers `allowed: false`, the run is the
denial status with no trial write. -/
theorem fresh_denied (st : Storage) (O : Oracle) (now : Int) (d : String)
    (resp : HttpResp TrialCheckResp)
    (hsa : serverSaysActive st O = false)
    (hst : serverHasTrial st O = false)
    (hls : localSubActiveAfter st O = false)
    (htr : st.trial = none)
    (hdev : st.deviceToken = some d)
    (hp : O.preCheck = Except.ok resp)
    (hok : resp.ok = true)
    (hall : resp.body.allowed = false) :
    getUnifiedFresh st O now =
      addEvents (checkEvents st O ++ tsEvents st O)
        (finish (deniedPreStatus resp.body.reason) (stAfterCheck st O)
          [Event.callPreCheck] now) := by
  rw [fresh_notActive st O now hsa,
    afterServer_noTrial (stAfterCheck st O) O now
      ((serverHasTrial_stAfterCheck st O).trans hst),
    afterTrialStatus_noSub (stAfterCheck st O) O now hls,
    tsEvents_stAfterCheck, addEvents_append]
  have htr2 : (stAfterCheck st O).trial = none := by rw [stAfterCheck_trial, htr]
  have hdev2 : (stAfterCheck st O).deviceToken = some d := by
    rw [stAfterCheck_deviceToken, hdev]
  simp only [checkLocalTrial, htr2, newTrialFlow, hdev2, hp, hok, hall,
    if_true, Bool.false_eq_true, if_false]

/-- Claim C8: when the `/trial/check` pre-check answers
`allowed: false`, the run returns a `trial_denied` status whose
`errorDetails` message distinguishes `device_already_used` from the
network-limit reason, writes no trial record, and a repeated (even
forced) call with the same remote answers returns the same status. -/
theorem pre_check_denial_final (st : Storage) (c : Cache) (O : Oracle)
    (now now2 : Int) (force : Bool) (d : String) (resp : HttpResp TrialCheckResp)
    (hc : cacheHit c now force = false)
    (hsa : serverSaysActive st O = false)
    (hst : serverHasTrial st O = false)
    (hls : localSubActiveAfter st O = false)
    (htr : st.trial = none)
    (hdev : st.deviceToken = some d)
    (hp : O.preCheck = Except.ok resp)
    (hok : resp.ok = true)
    (hall : resp.body.allowed = false) :
    (getUnifiedSubscriptionStatus st c O now force).status =
      deniedPreStatus resp.body.reason ∧
    (getUnifiedSubscriptionStatus st c O now force).status.plan = "trial_denied" ∧
    (getUnifiedSubscriptionStatus st c O now force).status.errorDetails =
      some (if resp.body.reason = "device_already_used"
        then "This device has already used a free trial"
        else "A trial has already been used from this network") ∧
    (∀ t, Event.writeTrial t ∉ (getUnifiedSubscriptionStatus st c O now force).events) ∧
    (getUnifiedSubscriptionStatus st c O now force).storage.trial = none ∧
    (getUnifiedSubscriptionStatus
        (getUnifiedSubscriptionStatus st c O now force).storage
        (getUnifiedSubscriptionStatus st c O now force).cache O now2 true).status =
      (getUnifiedSubscriptionStatus st c O now force).status := by
  rw [cacheMiss_eq st c O now force hc,
    fresh_denied st O now d resp hsa hst hls htr hdev hp hok hall]
  have hsa2 : serverSaysActive (stAfterCheck st O) O = false :=
    (serverSaysActive_stAfterCheck st O).trans hsa
  have hst2 : serverHasTrial (stAfterCheck st O) O = false :=
    (serverHasTrial_stAfterCheck st O).trans hst
  have hls2 : localSubActiveAfter (stAfterCheck st O) O = false := by
    unfold localSubActiveAfter
    rw [stAfterCheck_idem]
    exact hls
  have htr2 : (stAfterCheck st O).trial = none := by rw [stAfterCheck_trial, htr]
  have hdev2 : (stAfterCheck st O).deviceToken = some d := by
    rw [stAfterCheck_deviceToken, hdev]
  refine ⟨rfl, rfl, rfl, ?_, by simp [finish, htr], ?_⟩
  · intro t ht
    rw [addEvents_events] at ht
    rcases List.mem_append.mp ht with h1 | h2
    · rcases mem_preEvents st O _ h1 with h | ⟨s, h⟩ | h <;> simp at h
    · rw [show (finish (deniedPreStatus resp.body.reason) (stAfterCheck st O)
        [Event.callPreCheck] now).events = [Event.callPreCheck] from rfl] at h2
      simp at h2
  · rw [addEvents_storage, addEvents_cache]
    rw [show (finish (deniedPreStatus resp.body.reason) (stAfterCheck st O)
      [Event.callPreCheck] now).storage = stAfterCheck st O from rfl]
    rw [force_eq_fresh,
      fresh_denied (stAfterCheck st O) O now2 d resp hsa2 hst2 hls2 htr2 hdev2 hp hok hall]
    rfl

/-- Witness for claim C8: a device whose pre-check answers
`allowed: false` with reason `device_already_used`. -/
theorem pre_check_denial_final_witness :
    (getUnifiedSubscriptionStatus ⟨some "device_f", none, none⟩ ⟨none, 0⟩
        deniedPreOracle 5 false).status = deniedPreStatus "device_already_used" ∧
    (getUnifiedSubscriptionStatus ⟨some "device_f", none, none⟩ ⟨none, 0⟩
        deniedPreOracle 5 false).status.errorDetails =
      some "This device has already used a free trial" :=
  have h := pre_check_denial_final ⟨some "device_f", none, none⟩ ⟨none, 0⟩
    deniedPreOracle 5 99 false "device_f"
    ⟨true, ⟨false, "device_already_used", none, none⟩⟩
    rfl rfl rfl rfl rfl rfl rfl rfl rfl
  ⟨h.1, by rw [h.2.2.1]; decide⟩

/-- Claim C2 (divergence witness): for a brand-new device whose every
remote call fails with a transport error, `getUnifiedSubscriptionStatus`
does return a `plan = 'error'` status, but its message is
`Unable to verify trial status`, while `canUseExtension` looks for the
message `Error starting trial` that this implementation never produces;
the fail-open branch is therefore dead and the caller gets
`{canUse: false, reason: 'trial_expired'}` instead of the intended
`{canUse: true, reason: 'trial_fallback'}`. -/
theorem new_user_network_failure_fails_closed :
    (getUnifiedSubscriptionStatus ⟨some "device_g", none, none⟩ ⟨none, 0⟩
        fetchFailOracle 0 false).status = networkErrStatus "Failed to fetch" ∧
    (getUnifiedSubscriptionStatus ⟨some "device_g", none, none⟩ ⟨none, 0⟩
        fetchFailOracle 0 false).status.plan = "error" ∧
    (canUseExtension ⟨some "device_g", none, none⟩ ⟨none, 0⟩
        fetchFailOracle 0).1 = ⟨false, "trial_expired"⟩ ∧
    (canUseExtension ⟨some "device_g", none, none⟩ ⟨none, 0⟩
        fetchFailOracle 0).1 ≠ ⟨true, "trial_fallback"⟩ := by
  refine ⟨by decide, by decide, by decide, by decide⟩

theorem startTrial_ok_spec (st : Storage) (chk : Except String (HttpResp TrialCheckResp))
    (reg : Except String (HttpResp RegisterResp)) (now : Int)
    (td : TrialRecord) (st2 : Storage) (evs : List Event)
    (h : startTrial st chk reg now = .ok (td, st2, evs)) :
    ∃ d hr, st.deviceToken = some d ∧ td.deviceToken = d ∧
      evs = [Event.writeTrial td] ∧ reg = Except.ok hr ∧ hr.ok = true ∧
      hr.body.success = true := by
  unfold startTrial at h
  cases hd : st.deviceToken with
  | none => rw [hd] at h; exact absurd h (by simp)
  | some d =>
    rw [hd] at h
    cases hchk : chk with
    | error e => rw [hchk] at h; exact absurd h (by simp)
    | ok resp =>
      rw [hchk] at h
      by_cases ho : resp.ok = false
      · simp [ho] at h
      · by_cases ha : resp.body.allowed = false
        · simp [ho, ha] at h
        · cases hreg : reg with
          | error e => rw [hreg] at h; simp [ho, ha] at h
          | ok hr =>
            rw [hreg] at h
            by_cases hrok : hr.ok = false
            · simp [ho, ha, hrok] at h
            · by_cases hrs : hr.body.success = false
              · simp [ho, ha, hrok, hrs] at h
              · simp [ho, ha, hrok, hrs] at h
                obtain ⟨htd, hst2, hevs⟩ := h
                refine ⟨d, hr, rfl, ?_, ?_, rfl, ?_, ?_⟩
                · rw [← htd]
                · rw [← hevs, ← htd]
                · cases hrok2 : hr.ok with
                  | true => rfl
                  | false => exact absurd hrok2 hrok
                · cases hrs2 : hr.body.success with
                  | true => rfl
                  | false => exact absurd hrs2 hrs

theorem writes_runStartTrial (st : Storage) (O : Oracle) (now : Int) (t : TrialRecord) :
    Event.writeTrial t ∈ (runStartTrial st O now).events →
    ∃ d, st.deviceToken = some d ∧ t.deviceToken = d ∧ registerConfirmed O := by
  unfold runStartTrial
  cases hst : startTrial st O.stCheck O.register now with
  | error msg =>
    intro h
    by_cases hd : isDeniedMsg msg <;> simp [hd, finish] at h
  | ok v =>
    obtain ⟨td, st2, evs⟩ := v
    intro h
    obtain ⟨d, hr, hdev, htd, hevs, hreg, hrok, hrs⟩ :=
      startTrial_ok_spec st _ _ now td st2 evs hst
    rw [show (finish (trialActiveStatus td.trialEndsAt) st2
      (Event.callStartTrial :: evs) now).events = Event.callStartTrial :: evs from rfl,
      hevs] at h
    simp at h
    exact ⟨d, hdev, h ▸ htd, hr, hreg, hrok, hrs⟩

theorem writes_newTrialFlow (st : Storage) (O : Oracle) (now : Int) (t : TrialRecord) :
    Event.writeTrial t ∈ (newTrialFlow st O now).events →
    ∃ d, st.deviceToken = some d ∧ t.deviceToken = d ∧ registerConfirmed O := by
  unfold newTrialFlow
  cases hd : st.deviceToken with
  | none => intro h; exact hd ▸ writes_runStartTrial st O now t h
  | some dv =>
    cases hp : O.preCheck with
    | error e =>
      intro h
      rw [addEvents_events] at h
      rcases List.mem_cons.mp h with h1 | h2
      · simp at h1
      · obtain ⟨d, hdev, htd, hreg⟩ := writes_runStartTrial st O now t h2
        exact ⟨d, hd ▸ hdev, htd, hreg⟩
    | ok resp =>
      by_cases ho : resp.ok
      · by_cases ha : resp.body.allowed
        · simp only [ho, ha, if_true]
          intro h
          rw [addEvents_events] at h
          rcases List.mem_cons.mp h with h1 | h2
          · simp at h1
          · obtain ⟨d, hdev, htd, hreg⟩ := writes_runStartTrial st O now t h2
            exact ⟨d, hd ▸ hdev, htd, hreg⟩
        · simp only [ho, ha, if_true, Bool.false_eq_true, if_false]
          intro h
          rw [show (finish (deniedPreStatus resp.body.reason) st
            [Event.callPreCheck] now).events = [Event.callPreCheck] from rfl] at h
          simp at h
      · simp only [ho, Bool.false_eq_true, if_false]
        intro h
        rw [addEvents_events] at h
        rcases List.mem_cons.mp h with h1 | h2
        · simp at h1
        · obtain ⟨d, hdev, htd, hreg⟩ := writes_runStartTrial st O now t h2
          exact ⟨d, hd ▸ hdev, htd, hreg⟩

theorem writes_checkLocalTrial (st : Storage) (O : Oracle) (now : Int) (t : TrialRecord) :
    Event.writeTrial t ∈ (checkLocalTrial st O now).events →
    ∃ d, st.deviceToken = some d ∧ t.deviceToken = d ∧ registerConfirmed O := by
  unfold checkLocalTrial
  cases ht : st.trial with
  | none => exact writes_newTrialFlow st O now t
  | some lt =>
    cases hte : lt.trialEndsAt with
    | none => intro h; simp [hte, finish] at h
    | some te =>
      by_cases hlt : now < te <;> intro h <;> simp [hte, hlt, finish] at h

theorem writes_afterTrialStatus (st : Storage) (O : Oracle) (now : Int) (t : TrialRecord) :
    Event.writeTrial t ∈ (afterTrialStatus st O now).events →
    ∃ d, st.deviceToken = some d ∧ t.deviceToken = d ∧ registerConfirmed O := by
  unfold afterTrialStatus
  cases hs : st.subscription with
  | none => exact writes_checkLocalTrial st O now t
  | some ls =>
    by_cases ha : ls.active
    · simp only [ha, if_true]
      intro h
      simp [finish] at h
    · simp only [ha, Bool.false_eq_true, if_false]
      exact writes_checkLocalTrial st O now t

theorem writes_afterServer (st : Storage) (O : Oracle) (now : Int) (t : TrialRecord) :
    Event.writeTrial t ∈ (afterServer st O now).events →
    ∃ d, st.deviceToken = some d ∧ t.deviceToken = d ∧
      (trialRestoredConfirmed O ∨ registerConfirmed O) := by
  unfold afterServer
  cases hd : st.deviceToken with
  | none =>
    intro h
    obtain ⟨d, hdev, htd, hreg⟩ := writes_afterTrialStatus st O now t h
    exact ⟨d, hd ▸ hdev, htd, Or.inr hreg⟩
  | some dv =>
    cases hts : O.trialStatus with
    | error e =>
      intro h
      rw [addEvents_events] at h
      rcases List.mem_cons.mp h with h1 | h2
      · simp at h1
      · obtain ⟨d, hdev, htd, hreg⟩ := writes_afterTrialStatus st O now t h2
        exact ⟨d, hd ▸ hdev, htd, Or.inr hreg⟩
    | ok r =>
      by_cases hh : r.hasTrial
      · simp only [hh, if_true]
        have hrestored : trialRestoredConfirmed O := ⟨r, hts, hh⟩
        cases hte : r.trialEndsAt with
        | none =>
          intro h
          simp only [finish] at h
          rcases List.mem_cons.mp h with h1 | h2
          · simp at h1
          · simp at h2
            exact ⟨dv, rfl, by rw [h2], Or.inl hrestored⟩
        | some te =>
          by_cases hlt : now < te <;> intro h <;>
            simp only [hlt, if_true, Bool.false_eq_true, if_false, finish] at h <;>
            rcases List.mem_cons.mp h with h1 | h2 <;>
            first
              | simp at h1
              | (simp at h2; exact ⟨dv, rfl, by rw [h2], Or.inl hrestored⟩)
      · simp only [hh, Bool.false_eq_true, if_false]
        intro h
        rw [addEvents_events] at h
        rcases List.mem_cons.mp h with h1 | h2
        · simp at h1
        · obtain ⟨d, hdev, htd, hreg⟩ := writes_afterTrialStatus st O now t h2
          exact ⟨d, hd ▸ hdev, htd, Or.inr hreg⟩

/-- When the `/check` step reports an active subscription, the whole
run is that status with only the `/check` events. -/
theorem fresh_active (st : Storage) (O : Oracle) (now : Int)
    (h : serverSaysActive st O = true) :
    ∃ data, O.check = Except.ok data ∧ data.active = true ∧
      getUnifiedFresh st O now =
        finish data (stAfterCheck st O) [Event.callCheck, Event.writeSub data] now := by
  unfold serverSaysActive at h
  cases hd : st.deviceToken with
  | none => rw [hd] at h; simp at h
  | some d =>
    cases hc : O.check with
    | error e => rw [hd, hc] at h; simp at h
    | ok data =>
      rw [hd, hc] at h
      simp at h
      refine ⟨data, rfl, h, ?_⟩
      simp [getUnifiedFresh, stAfterCheck, hd, hc, h]

theorem writes_fresh (st : Storage) (O : Oracle) (now : Int) (t : TrialRecord) :
    Event.writeTrial t ∈ (getUnifiedFresh st O now).events →
    ∃ d, st.deviceToken = some d ∧ t.deviceToken = d ∧
      (trialRestoredConfirmed O ∨ registerConfirmed O) := by
  intro h
  cases hsa : serverSaysActive st O with
  | true =>
    obtain ⟨data, hchk, hact, heq⟩ := fresh_active st O now hsa
    rw [heq] at h
    simp [finish] at h
  | false =>
    rw [fresh_notActive st O now hsa, addEvents_events] at h
    rcases List.mem_append.mp h with h1 | h2
    · rcases mem_checkEvents st O _ h1 with hx | ⟨sx, hx⟩ <;> simp at hx
    · obtain ⟨d, hdev, htd, hreg⟩ := writes_afterServer (stAfterCheck st O) O now t h2
      rw [stAfterCheck_deviceToken] at hdev
      exact ⟨d, hdev, htd, hreg⟩

/-- Claim C1: a trial record reaches local storage only with the Remote
Authority's explicit approval.  Every write of the trial key performed
by `startTrial` carries the device token and is conditional on an ok
`/trial/register` response with `success = true`; every write performed
by a `getUnifiedSubscriptionStatus` run is conditional on either a
`/trial/status` response reporting the existing server-side trial or an
ok, successful `/trial/register` response, always for the device token
in storage. -/
theorem trial_write_requires_server_confirmation :
    (∀ (st : Storage) (chk : Except String (HttpResp TrialCheckResp))
        (reg : Except String (HttpResp RegisterResp)) (now : Int)
        (td : TrialRecord) (st2 : Storage) (evs : List Event),
      startTrial st chk reg now = Except.ok (td, st2, evs) →
      ∀ t, Event.writeTrial t ∈ evs →
        ∃ d hr, st.deviceToken = some d ∧ t.deviceToken = d ∧
          reg = Except.ok hr ∧ hr.ok = true ∧ hr.body.success = true) ∧
    (∀ (st : Storage) (c : Cache) (O : Oracle) (now : Int) (force : Bool)
        (t : TrialRecord),
      Event.writeTrial t ∈ (getUnifiedSubscriptionStatus st c O now force).events →
      ∃ d, st.deviceToken = some d ∧ t.deviceToken = d ∧
        (trialRestoredConfirmed O ∨ registerConfirmed O)) := by
  constructor
  · intro st chk reg now td st2 evs h t ht
    obtain ⟨d, hr, hdev, htd, hevs, hreg, hrok, hrs⟩ :=
      startTrial_ok_spec st chk reg now td st2 evs h
    rw [hevs] at ht
    simp at ht
    exact ⟨d, hr, hdev, ht ▸ htd, hreg, hrok, hrs⟩
  · intro st c O now force t ht
    unfold getUnifiedSubscriptionStatus at ht
    revert ht
    cases hcs : c.statusCache with
    | none => exact writes_fresh st O now t
    | some s =>
      by_cases hfr : (!force && decide (now - c.cacheTimestamp < CACHE_DURATION)) = true
      · simp only [hfr, if_true]
        intro ht
        simp at ht
      · simp only [Bool.not_eq_true] at hfr
        simp only [hfr, Bool.false_eq_true, if_false]
        exact writes_fresh st O now t

/-- Witness for claim C1: on a run that actually writes a trial record
(the new-trial path with a confirming registration), the write is
covered by the register confirmation. -/
theorem trial_write_requires_server_confirmation_witness :
    ∃ d, (⟨some "device_h", none, none⟩ : Storage).deviceToken = some d ∧
      (⟨"device_h", some (TRIAL_DURATION_DAYS * msPerDay), some 0, true, true, false⟩ :
        TrialRecord).deviceToken = d ∧
      (trialRestoredConfirmed trialGrantOracle ∨ registerConfirmed trialGrantOracle) :=
  trial_write_requires_server_confirmation.2 ⟨some "device_h", none, none⟩ ⟨none, 0⟩
    trialGrantOracle 0 false
    ⟨"device_h", some (TRIAL_DURATION_DAYS * msPerDay), some 0, true, true, false⟩
    (by decide)

end ThreadAi
